import Mathlib

/-!
Verification development for the NephoScale CloudBench tool (bench.py).

The program is a Python 2 script: it targets Ubuntu 12.04 era packages
(php5, phoronix 5.2.1), and its calls of re.search with a str pattern on
the byte strings returned by subprocess.check_output only run under
Python 2 (under Python 3 every such call raises TypeError).  The
embedding therefore follows CPython 2.7 semantics: a plain dict is an
open addressing hash table with no insertion order guarantee, and the
division operator on int is floor division.

External effects (subprocess invocations, file reads, the hostname) are
supplied by an Env value; every function additionally returns the list
of shell command lines it invoked, in order, so that sequencing claims
can be stated.
-/

namespace CloudBench

/-- Python whitespace characters, as used by str.strip, str.split and the
regular expression class backslash-s in Python 2 (space, tab, newline,
carriage return, vertical tab, form feed). -/
def isPySpace (c : Char) : Bool :=
  c = ' ' || c = '\t' || c = '\n' || c = '\r' || c = '\x0b' || c = '\x0c'

/-- Python str.strip with no argument: drop whitespace from both ends. -/
def pyStrip (s : String) : String :=
  String.mk (((s.data.dropWhile isPySpace).reverse.dropWhile isPySpace).reverse)

/-- Numeric value of a list of decimal digit characters. -/
def digitsToNat (cs : List Char) : Nat :=
  cs.foldl (fun a c => 10 * a + (c.toNat - 48)) 0

/-- Python int(str): leading and trailing whitespace is ignored, then an
optional sign followed by at least one decimal digit; anything else
raises ValueError, modelled as none. -/
def pyInt (s : String) : Option Int :=
  match (pyStrip s).data with
  | [] => none
  | '+' :: ds =>
    if ds ≠ [] ∧ ds.all Char.isDigit then some (Int.ofNat (digitsToNat ds)) else none
  | '-' :: ds =>
    if ds ≠ [] ∧ ds.all Char.isDigit then some (-(Int.ofNat (digitsToNat ds))) else none
  | ds =>
    if ds.all Char.isDigit then some (Int.ofNat (digitsToNat ds)) else none

/-- Helper for the two Python split functions: cut the character list at
each maximal whitespace run.  The fuel argument bounds the recursion and
is always given as more than the length of the list. -/
def splitFieldsAux : Nat → List Char → List String
  | 0, _ => []
  | fuel + 1, cs =>
    let field := cs.takeWhile (fun c => ! isPySpace c)
    let rest := cs.dropWhile (fun c => ! isPySpace c)
    match rest with
    | [] => [String.mk field]
    | _ => String.mk field :: splitFieldsAux fuel (rest.dropWhile isPySpace)

/-- Python re.split with pattern backslash-s-plus: fields between maximal
whitespace runs, keeping empty boundary fields (so a leading or trailing
separator yields an empty string field). -/
def pyReSplitWs (s : String) : List String :=
  splitFieldsAux (s.data.length + 1) s.data

/-- Python str.split with no argument: whitespace separated fields with
empty fields discarded. -/
def pyStrSplit (s : String) : List String :=
  (pyReSplitWs s).filter (fun f => f ≠ "")

/-- Decide whether the needle character list occurs contiguously anywhere
inside the haystack. -/
def occursIn (needle : List Char) : List Char → Bool
  | [] => needle.isPrefixOf []
  | c :: cs => needle.isPrefixOf (c :: cs) || occursIn needle cs

/-- Substring test on strings: grep with a plain text pattern selects
exactly the lines for which this holds. -/
def strContains (hay needle : String) : Bool :=
  occursIn needle.data hay.data

/-- Two to the 64, the modulus of CPython C long arithmetic on an LP64
host. -/
def U64 : Nat := 18446744073709551616

/-- CPython 2.7 string hash (hash randomization off, the default),
as an unsigned 64 bit value: x starts as the first byte shifted left by
seven, then x = (1000003 * x) xor byte over all bytes, then x is xored
with the length; the all ones value (signed -1) is mapped to -2.
Transcribed from string_hash in stringobject.c. -/
def py2hash (s : String) : Nat :=
  match s.data with
  | [] => 0
  | c :: _ =>
    let x0 := (c.toNat <<< 7) % U64
    let x1 := s.data.foldl (fun x ch => ((1000003 * x) % U64) ^^^ ch.toNat) x0
    let x2 := x1 ^^^ s.data.length
    if x2 = U64 - 1 then U64 - 2 else x2

/-- The eight slot table of a small CPython dict (PyDict_MINSIZE = 8; a
table with at most five keys is never resized because resizing needs
fill * 3 >= 16).  Each slot optionally holds a key. -/
def emptyTable : List (Option String) :=
  [none, none, none, none, none, none, none, none]

/-- Tail of the CPython dict probe sequence: i := 5 * i + perturb + 1 and
perturb := perturb >>> 5, the visited slot being i mod 8, all arithmetic
modulo 2 ^ 64.  Transcribed from lookdict in dictobject.c. -/
def probeAux : Nat → Nat → Nat → List Nat
  | 0, _, _ => []
  | fuel + 1, i, perturb =>
    let i2 := (5 * i + perturb + 1) % U64
    i2 % 8 :: probeAux fuel i2 (perturb / 32)

/-- Probe sequence of a hash value in the eight slot table: the first
visited slot is hash mod 8, then the perturbed sequence follows.  The
fuel 64 is far more than enough to reach an empty slot in a table that
never holds more than five keys. -/
def probeSeq (h : Nat) : List Nat :=
  h % 8 :: probeAux 64 (h % 8) (h % U64)

/-- Walk a probe sequence and place the key at the first slot that is
empty or already holds this key (there are no deletions, hence no dummy
slots). -/
def placeAt : List Nat → List (Option String) → String → List (Option String)
  | [], t, _ => t
  | i :: is, t, k =>
    match t.get? i with
    | some none => t.set i (some k)
    | some (some k2) => if k2 = k then t else placeAt is t k
    | none => t

/-- Insert one key into the table along the probe sequence of its hash. -/
def insertKey (t : List (Option String)) (k : String) : List (Option String) :=
  placeAt (probeSeq (py2hash k)) t k

/-- Build the table of a fresh dict whose keys were inserted in the given
order. -/
def insertAll (ks : List String) : List (Option String) :=
  ks.foldl insertKey emptyTable

/-- Iteration order of dict.keys(): occupied slots in slot order.  This is
the order in which bench.py iterates results.keys() when writing the
report, and the order in which dict.update reads entries out of a source
dict. -/
def dictOrder (ks : List String) : List String :=
  (insertAll ks).filterMap id

/-- Single character classes appearing in the three patterns of bench.py:
backslash-d (ASCII digits for a Python 2 str pattern), backslash-s
(Python whitespace) and the dot (any character except newline, DOTALL
being off). -/
inductive Cls where
  | digit
  | space
  | dot
deriving Repr, DecidableEq

/-- Membership in a character class. -/
def clsMatch : Cls → Char → Bool
  | .digit, c => c.isDigit
  | .space, c => isPySpace c
  | .dot, c => c ≠ '\n'

/-- Tokens of the regular expressions used by bench.py: a literal string,
a greedy one-or-more repetition of a class, and the single capture group,
which in all three patterns wraps a greedy one-or-more repetition of a
class. -/
inductive RTok where
  | lit (s : String)
  | plusCls (c : Cls)
  | group (c : Cls)
deriving Repr, DecidableEq

/-- Match a token list against a prefix of the character list, returning
none on failure and the captured group (if the capture participated) on
success.  Greedy repetition backtracks from the longest class run down to
one character, which is the Python backtracking order.  The fuel only
needs to exceed the token list length, since every recursive call drops
one token. -/
def matchToks : Nat → List RTok → List Char → Option (Option String)
  | 0, _, _ => none
  | _ + 1, [], _ => some none
  | fuel + 1, .lit l :: rest, cs =>
    if l.data.isPrefixOf cs then matchToks fuel rest (cs.drop l.data.length) else none
  | fuel + 1, .plusCls cl :: rest, cs =>
    let m := (cs.takeWhile (clsMatch cl)).length
    (List.range m).findSome? (fun j => matchToks fuel rest (cs.drop (m - j)))
  | fuel + 1, .group cl :: rest, cs =>
    let m := (cs.takeWhile (clsMatch cl)).length
    (List.range m).findSome? (fun j =>
      match matchToks fuel rest (cs.drop (m - j)) with
      | some _ => some (some (String.mk (cs.take (m - j))))
      | none => none)

/-- Scan of re.search: try to match at every start position from left to
right and return the captured group of the first (leftmost) match. -/
def reSearchCs (toks : List RTok) : List Char → Option String
  | [] => (matchToks (toks.length + 1) toks []).map (fun c => c.getD "")
  | c :: cs =>
    match matchToks (toks.length + 1) toks (c :: cs) with
    | some cap => some (cap.getD "")
    | none => reSearchCs toks cs

/-- Python re.search over a string, yielding result.groups()[0] of the
first match, or none when the pattern does not match anywhere. -/
def reSearch (toks : List RTok) (s : String) : Option String :=
  reSearchCs toks s.data

/-- Pattern of the phoronix kernel compile test:
backslash-s-plus Average colon space (backslash-d-plus) backslash-dot
backslash-d-plus space Seconds. -/
def phoronixPat : List RTok :=
  [.plusCls .space, .lit "Average: ", .group .digit, .lit ".", .plusCls .digit, .lit " Seconds"]

/-- Pattern of the fio random write test: write dot-plus iops equals
(backslash-d-plus) dot-plus. -/
def fioWritePat : List RTok :=
  [.lit "write", .plusCls .dot, .lit "iops=", .group .digit, .plusCls .dot]

/-- Pattern of the fio random read test: read dot-plus iops equals
(backslash-d-plus) dot-plus. -/
def fioReadPat : List RTok :=
  [.lit "read", .plusCls .dot, .lit "iops=", .group .digit, .plusCls .dot]

/-- One entry of a result dict: the displayed name and the formatted
result value, as stored under the keys name and result in bench.py. -/
structure TestResult where
  name : String
  result : String
deriving Repr, DecidableEq

/-- Failure outcomes of a run.  toolExecution models
subprocess.CalledProcessError, raised by check_call and check_output on a
nonzero exit status and carrying the command line and the status (the
ToolExecutionError of the specification); extraction and configuration
model the CloudBenchException raised directly after a LOG.exception call
that records the shown context (the ExtractionError and
ConfigurationError of the specification); valueError models the Python
ValueError raised by int() on a non numeric string; indexError models a
Python IndexError from an out of range list index; keyboardInterrupt
models an interrupt signal arriving during the run. -/
inductive BenchError where
  | toolExecution (cmd : String) (status : Nat)
  | extraction (testName : String) (output : String)
  | configuration (mode : String)
  | valueError (text : String)
  | indexError
  | keyboardInterrupt
deriving Repr, DecidableEq

/-- Result of a pipeline stage: the Except value of the stage paired with
the list of shell command lines the stage invoked, in order. -/
@[reducible] def RunRes (α : Type) : Type :=
  Except BenchError α × List String

/-- Sequence two stages; on failure of the first the second never runs
(Python exception propagation), and traces concatenate. -/
def rbind {α β : Type} (x : RunRes α) (f : α → RunRes β) : RunRes β :=
  match x with
  | (.ok a, t) => ((f a).1, t ++ (f a).2)
  | (.error e, t) => (.error e, t)

/-- Stage that succeeds with a value and invokes nothing. -/
def rok {α : Type} (a : α) : RunRes α :=
  (.ok a, [])

/-- Map over the value of a stage. -/
def rmap {α β : Type} (f : α → β) (x : RunRes α) : RunRes β :=
  (x.1.map f, x.2)

/-- Prepend a command line to the trace of a stage. -/
def rtag {α : Type} (c : String) (x : RunRes α) : RunRes α :=
  (x.1, c :: x.2)

/-- Exit status and captured standard output of one external invocation. -/
structure ToolOut where
  exitCode : Nat
  output : String

/-- The command line arguments consumed by the core (argparse wiring is
out of scope): the I/O bench mode and the short mode size in megabytes. -/
structure Args where
  iobench_type : String
  iobench_short_size : Int

/-- Behavior of the outside world during one run: the hostname, the
outcome of the free memory query, the outcomes of the phoronix install
and batch-run commands keyed by test id, the exit status of the iozone
shell pipeline together with the raw iozone standard output lines before
the grep filters, the fio exit statuses and output file contents keyed by
the fio header name, and the ioping outcome. -/
structure Env where
  hostname : String
  freeRun : ToolOut
  phInstallRun : String → ToolOut
  phBatchRun : String → ToolOut
  iozoneExit : Nat
  iozoneRawLines : List String
  fioRun : String → Nat
  fioFile : String → String
  iopingRun : ToolOut

/-- Shell command of the host memory query in __get_io_test_size. -/
def freeCmd : String :=
  "free -m | grep Mem: | awk '\x7bprint $2\x7d'"

/-- Shell command installing one phoronix test. -/
def phInstallCmdOf (test : String) : String :=
  "phoronix-test-suite install " ++ test

/-- Shell command running one phoronix test in batch mode. -/
def phBatchCmdOf (test : String) : String :=
  "/usr/bin/phoronix-test-suite batch-run " ++ test

/-- Shell command of the iozone pipeline: the direct I/O run piped
through grep for the kilobyte size, then grep -v maximum, then grep -v
minimum (IOBENCH_PATH is /tmp). -/
def iozoneCmd (size_m size_k : Int) : String :=
  "cd /tmp && iozone -I -A -g " ++ toString size_m ++ "m -n " ++ toString size_m ++
    "m -r 16 | grep " ++ toString size_k ++ " | grep -v maximum | grep -v minimum"

/-- Shell command of one fio run, writing its report to the output file
of the given header name. -/
def fioCmd (hdr : String) : String :=
  "fio --output=/tmp/" ++ hdr ++ ".output /tmp/" ++ hdr ++ ".fio"

/-- Shell command of the ioping latency test. -/
def iopingCmd : String :=
  "ioping -B -D -c 3 /tmp"

/-- The compute family registry REQUIRED_PHORONIX_TESTS: display name,
test id, result pattern. -/
def REQUIRED_PHORONIX_TESTS : List (String × String × List RTok) :=
  [("Multicore Kernel Compile (seconds)", "pts/build-linux-kernel", phoronixPat)]

/-- The fio registry REQUIRED_FIO_TESTS: display name, header name (the
dict key), rw mode, block size, optional I/O engine, result pattern. -/
def REQUIRED_FIO_TESTS : List (String × String × String × String × Option String × List RTok) :=
  [("FIO random writes using 4k blocks", "random-write", "randwrite", "4k", some "sync", fioWritePat),
   ("FIO random reads using 4k blocks", "random-read", "randread", "4k", none, fioReadPat)]

/-- The workload sizer __get_io_test_size: always runs the live memory
query first and parses its stripped output with int(); then in short
mode the sizes are (short_size, short_size * 1024), in long mode
(ram * 2, ram * 2 * 1024), and any other mode logs and raises
CloudBenchException (the ConfigurationError). -/
def __get_io_test_size (env : Env) (args : Args) : RunRes (Int × Int) :=
  if env.freeRun.exitCode ≠ 0 then
    (.error (.toolExecution freeCmd env.freeRun.exitCode), [freeCmd])
  else
    match pyInt (pyStrip env.freeRun.output) with
    | none => (.error (.valueError (pyStrip env.freeRun.output)), [freeCmd])
    | some ram =>
      if args.iobench_type = "short" then
        (.ok (args.iobench_short_size, args.iobench_short_size * 1024), [freeCmd])
      else if args.iobench_type = "long" then
        (.ok (ram * 2, ram * 2 * 1024), [freeCmd])
      else
        (.error (.configuration args.iobench_type), [freeCmd])

/-- One phoronix test: install (check_call), batch-run (check_output),
then re.search with the test pattern; no match logs the test id and the
full output and raises (the ExtractionError); a match stores the first
captured group unmodified under the test id. -/
def __run_phoronix_test (env : Env) (name test : String) (pat : List RTok) : RunRes (String × TestResult) :=
  if (env.phInstallRun test).exitCode ≠ 0 then
    (.error (.toolExecution (phInstallCmdOf test) (env.phInstallRun test).exitCode),
      [phInstallCmdOf test])
  else if (env.phBatchRun test).exitCode ≠ 0 then
    (.error (.toolExecution (phBatchCmdOf test) (env.phBatchRun test).exitCode),
      [phInstallCmdOf test, phBatchCmdOf test])
  else
    match reSearch pat (env.phBatchRun test).output with
    | none =>
      (.error (.extraction test (env.phBatchRun test).output),
        [phInstallCmdOf test, phBatchCmdOf test])
    | some g =>
      (.ok (test, ⟨name, g⟩), [phInstallCmdOf test, phBatchCmdOf test])

/-- Fold of the compute family over its registry, accumulating the dict
update events in declaration order. -/
def runPhoronixTests (env : Env) : List (String × String × List RTok) → RunRes (List (String × TestResult))
  | [] => rok []
  | (name, test, pat) :: rest =>
    rbind (__run_phoronix_test env name test pat) (fun ev =>
      rmap (fun evs => ev :: evs) (runPhoronixTests env rest))

/-- The compute family runner _run_tests_phoronix.  The deterministic
user-config.xml write that precedes the tests is a file system effect
with no bearing on any claim and is not modelled. -/
def _run_tests_phoronix (env : Env) : RunRes (List (String × TestResult)) :=
  runPhoronixTests env REQUIRED_PHORONIX_TESTS

/-- The grep filter chain inside the iozone command line: keep the lines
containing the kilobyte size, then drop the lines containing maximum,
then drop the lines containing minimum.  This runs in the shell, so the
text seen by check_output is already filtered. -/
def iozoneFilteredLines (size_k : Int) (lines : List String) : List String :=
  ((lines.filter (fun l => strContains l (toString size_k))).filter
      (fun l => ! strContains l "maximum")).filter
    (fun l => ! strContains l "minimum")

/-- Captured output of the iozone pipeline: grep emits each selected line
followed by a newline. -/
def iozoneOutput (size_k : Int) (lines : List String) : String :=
  String.join ((iozoneFilteredLines size_k lines).map (fun l => l ++ "\n"))

/-- Python 2 integer division: the / operator on int floors. -/
def pyFloorDiv (a b : Int) : Int :=
  Int.fdiv a b

/-- Display name of the iozone result entry. -/
def iozoneName : String := "IOZone I/O Throughput Test"

/-- The iozone part of __run_iobench_test: run the pipeline, split the
stripped output on whitespace runs, and format columns two and four
(zero based) divided by 1024 into the result string.  A missing column
raises IndexError and a non numeric column raises ValueError, exactly as
the int() and indexing calls of the source would. -/
def iozoneStep (env : Env) (size_m size_k : Int) : RunRes TestResult :=
  if env.iozoneExit ≠ 0 then
    (.error (.toolExecution (iozoneCmd size_m size_k) env.iozoneExit), [iozoneCmd size_m size_k])
  else
    match (pyReSplitWs (pyStrip (iozoneOutput size_k env.iozoneRawLines))).get? 2 with
    | none => (.error .indexError, [iozoneCmd size_m size_k])
    | some c2 =>
      match pyInt c2 with
      | none => (.error (.valueError c2), [iozoneCmd size_m size_k])
      | some a =>
        match (pyReSplitWs (pyStrip (iozoneOutput size_k env.iozoneRawLines))).get? 4 with
        | none => (.error .indexError, [iozoneCmd size_m size_k])
        | some c4 =>
          match pyInt c4 with
          | none => (.error (.valueError c4), [iozoneCmd size_m size_k])
          | some b =>
            (.ok ⟨iozoneName,
              "Write " ++ toString (pyFloorDiv a 1024) ++ " MB/s Read " ++
                toString (pyFloorDiv b 1024) ++ " MB/s"⟩, [iozoneCmd size_m size_k])

/-- The fio loop of __run_iobench_test: for each registry entry write the
job file (a file system effect not modelled), run fio (check_call), read
the output file, and re.search the pattern; no match logs the test name
and the full output and raises.  The second component of the value is the
match of the LAST fio test, because the Python variable result stays
bound after the loop and is read again by the ioping code below. -/
def runFioTests (env : Env) : List (String × String × String × String × Option String × List RTok) → Option String → RunRes (List (String × TestResult) × Option String)
  | [], last => rok ([], last)
  | (name, hdr, _, _, _, pat) :: rest, _ =>
    if env.fioRun hdr ≠ 0 then
      (.error (.toolExecution (fioCmd hdr) (env.fioRun hdr)), [fioCmd hdr])
    else
      match reSearch pat (env.fioFile hdr) with
      | none => (.error (.extraction name (env.fioFile hdr)), [fioCmd hdr])
      | some g =>
        rtag (fioCmd hdr)
          (rmap (fun p => ((hdr, ⟨name, g ++ " IOPS"⟩) :: p.1, p.2))
            (runFioTests env rest (some g)))

/-- Display name of the ioping result entry. -/
def iopingName : String := "IOPing Write Latency Test"

/-- The ioping part of __run_iobench_test.  The source line
if not result: tests the result variable still bound to the match object
of the last fio test, not anything derived from the ioping output; the
embedding keeps that faithfully as the last argument.  When the guard
does not fire, element five of output.split() is formatted with a usec
suffix, raising IndexError when the output has fewer than six fields. -/
def iopingStep (env : Env) (last : Option String) : RunRes TestResult :=
  if env.iopingRun.exitCode ≠ 0 then
    (.error (.toolExecution iopingCmd env.iopingRun.exitCode), [iopingCmd])
  else
    match last with
    | none => (.error (.extraction "ioping" env.iopingRun.output), [iopingCmd])
    | some _ =>
      match (pyStrSplit env.iopingRun.output).get? 5 with
      | none => (.error .indexError, [iopingCmd])
      | some t => (.ok ⟨iopingName, t ++ "usec"⟩, [iopingCmd])

/-- Body of __run_iobench_test: iozone, then the fio registry in order,
then ioping, accumulating dict update events in execution order. -/
def __run_iobench_test (env : Env) (size_m size_k : Int) : RunRes (List (String × TestResult)) :=
  rbind (iozoneStep env size_m size_k) (fun rz =>
    rbind (runFioTests env REQUIRED_FIO_TESTS none) (fun p =>
      rbind (iopingStep env p.2) (fun rp =>
        rok (("iozone", rz) :: p.1 ++ [("ioping", rp)]))))

/-- The I/O family runner _run_tests_iobench: derive the workload size
once, then run all iobench tests with it. -/
def _run_tests_iobench (env : Env) (args : Args) : RunRes (List (String × TestResult)) :=
  rbind (__get_io_test_size env args) (fun sz => __run_iobench_test env sz.1 sz.2)

/-- The dict value of a key after a sequence of update events: the last
write wins. -/
def lookupLast (events : List (String × TestResult)) (k : String) : Option TestResult :=
  (events.reverse.find? (fun e => e.1 = k)).map (fun e => e.2)

/-- Iteration order of the results dict of run_tests.  results is a fresh
dict updated first with the phoronix results dict and then with the
iobench results dict; dict.update reads each source dict in its own slot
order, so the keys enter results in that order, and results.keys() then
yields its own slot order. -/
def reportKeyOrder (phKeys ioKeys : List String) : List String :=
  dictOrder (dictOrder phKeys ++ dictOrder ioKeys)

/-- Header line of the report file. -/
def csvHeader : String :=
  "hostname,test_name,test_description,test_result\n"

/-- Content of /tmp/cloudbench.csv as written by run_tests: the header,
then one line per results.keys() entry with the hostname, the key, the
stored name and the stored result. -/
def mkCsv (hostname : String) (phEvents ioEvents : List (String × TestResult)) : String :=
  let events := phEvents ++ ioEvents
  let keys := reportKeyOrder (phEvents.map Prod.fst) (ioEvents.map Prod.fst)
  csvHeader ++ String.join (keys.map (fun k =>
    match lookupLast events k with
    | some r => hostname ++ "," ++ k ++ "," ++ r.name ++ "," ++ r.result ++ "\n"
    | none => ""))

/-- The orchestrator run_tests: compute family first, then I/O family,
then the report write.  The value pairs the update events in execution
order with the written report text; any failure propagates before the
report is opened, so no report exists on a failure path. -/
def run_tests (env : Env) (args : Args) : RunRes (List (String × TestResult) × String) :=
  rbind (_run_tests_phoronix env) (fun ph =>
    rbind (_run_tests_iobench env args) (fun io =>
      rok (ph ++ io, mkCsv env.hostname ph io)))

/-- The top level __main__ block: run everything inside try, sys.exit(0)
on success; every handler (Exception, CloudBenchException,
KeyboardInterrupt) calls sys.exit(1).  The pair is the process exit code
and the report content, none when no report was written. -/
def main_run (env : Env) (args : Args) : Nat × Option String :=
  match run_tests env args with
  | (.ok v, _) => (0, some v.2)
  | (.error _, _) => (1, none)

/-- Arguments of a default short mode run (the argparse defaults). -/
def args0 : Args := ⟨"short", 512⟩

/-- Arguments of a long mode run. -/
def argsLong : Args := ⟨"long", 512⟩

/-- Arguments with a mode outside the two recognized values. -/
def argsBadMode : Args := ⟨"medium", 512⟩

/-- Raw iozone row carrying the word maximum. -/
def rowMax : String := "  524288 16 100000 200000 300000 maximum"

/-- Raw iozone row of the wanted average statistic. -/
def rowAvg : String := "  524288 16 102400 200000 307200"

/-- Raw iozone row carrying the word minimum. -/
def rowMin : String := "  524288 16 90000 200000 280000 minimum"

/-- A world in which every tool succeeds and every output is well formed:
the host reports 2048 MB of memory, phoronix prints an Average line, the
iozone block has a maximum, an average and a minimum row, both fio
reports match their patterns, and ioping prints a line whose sixth field
is 250. -/
def env0 : Env where
  hostname := "host1"
  freeRun := ⟨0, "2048"⟩
  phInstallRun := fun _ => ⟨0, ""⟩
  phBatchRun := fun _ => ⟨0, "  Average: 123.45 Seconds"⟩
  iozoneExit := 0
  iozoneRawLines := [rowMax, rowAvg, rowMin]
  fioRun := fun _ => 0
  fioFile := fun h =>
    if h = "random-write" then "  write: io=2048MB, iops=5000, runt=1000ms"
    else "  read: io=2048MB, iops=7000, runt=1000ms"
  iopingRun := ⟨0, "p0 p1 p2 p3 p4 250 us"⟩

/-- Like env0 but the ioping output has fewer than six fields. -/
def envBugShort : Env := { env0 with iopingRun := ⟨0, "io error"⟩ }

/-- Like env0 but the ioping output is eight junk fields. -/
def envBugJunk : Env := { env0 with iopingRun := ⟨0, "a b c d e f g h"⟩ }

/-- Like env0 but the phoronix batch-run exits with status one. -/
def envToolFail : Env := { env0 with phBatchRun := fun _ => ⟨1, "boom"⟩ }

/-- Like env0 but the phoronix install exits with status two. -/
def envInstFail : Env := { env0 with phInstallRun := fun _ => ⟨2, ""⟩ }

/-- Like env0 but the memory query prints a non numeric string. -/
def envBadRam : Env := { env0 with freeRun := ⟨0, "not a number"⟩ }

/-- Like env0 but the iozone block is a single row whose throughput
columns are not multiples of 1024. -/
def envTrunc : Env := { env0 with iozoneRawLines := ["524288 16 1000 200 3000"] }

/-- The dict update events of the successful env0 run, in execution
order. -/
def goodEvents : List (String × TestResult) :=
  [("pts/build-linux-kernel", ⟨"Multicore Kernel Compile (seconds)", "123"⟩),
   ("iozone", ⟨"IOZone I/O Throughput Test", "Write 100 MB/s Read 300 MB/s"⟩),
   ("random-write", ⟨"FIO random writes using 4k blocks", "5000 IOPS"⟩),
   ("random-read", ⟨"FIO random reads using 4k blocks", "7000 IOPS"⟩),
   ("ioping", ⟨"IOPing Write Latency Test", "250usec"⟩)]

/-- The report written by the successful env0 run.  Note the row order:
it is the dict slot order, not the execution order. -/
def goodCsv : String :=
  "hostname,test_name,test_description,test_result\nhost1,iozone,IOZone I/O Throughput Test,Write 100 MB/s Read 300 MB/s\nhost1,random-read,FIO random reads using 4k blocks,7000 IOPS\nhost1,ioping,IOPing Write Latency Test,250usec\nhost1,pts/build-linux-kernel,Multicore Kernel Compile (seconds),123\nhost1,random-write,FIO random writes using 4k blocks,5000 IOPS\n"

/-- The command lines invoked by a fully successful short mode run, in
order. -/
def goodTrace : List String :=
  [phInstallCmdOf "pts/build-linux-kernel", phBatchCmdOf "pts/build-linux-kernel",
   freeCmd, iozoneCmd 512 524288, fioCmd "random-write", fioCmd "random-read", iopingCmd]

end CloudBench

namespace CloudBench

theorem rbind_error {α β : Type} (e : BenchError) (t : List String) (f : α → RunRes β) :
    rbind ((Except.error e, t) : RunRes α) f = (Except.error e, t) := rfl

theorem rbind_ok {α β : Type} (a : α) (t : List String) (f : α → RunRes β) :
    rbind ((Except.ok a, t) : RunRes α) f = ((f a).1, t ++ (f a).2) := rfl

deriving instance DecidableEq for Except

set_option maxRecDepth 100000 in
theorem run_env0 : run_tests env0 args0 = (.ok (goodEvents, goodCsv), goodTrace) := by
  decide

/-- C1: the workload sizer maps short mode to sizeMegabytes equal to the
configured short size and long mode to twice the host memory, with
sizeKilobytes equal to sizeMegabytes times 1024 in every successful
outcome; being a function of its inputs it is deterministic. -/
theorem C1_derive_size (env : Env) (args : Args) (ram : Int)
    (hexit : env.freeRun.exitCode = 0)
    (hram : pyInt (pyStrip env.freeRun.output) = some ram) :
    (args.iobench_type = "short" →
      __get_io_test_size env args =
        (.ok (args.iobench_short_size, args.iobench_short_size * 1024), [freeCmd])) ∧
    (args.iobench_type = "long" →
      __get_io_test_size env args = (.ok (ram * 2, ram * 2 * 1024), [freeCmd])) ∧
    (∀ m k t, __get_io_test_size env args = (.ok (m, k), t) → k = m * 1024) := by
  have key : __get_io_test_size env args =
      (if args.iobench_type = "short" then
        (.ok (args.iobench_short_size, args.iobench_short_size * 1024), [freeCmd])
      else if args.iobench_type = "long" then
        (.ok (ram * 2, ram * 2 * 1024), [freeCmd])
      else
        (.error (.configuration args.iobench_type), [freeCmd])) := by
    unfold __get_io_test_size
    rw [hexit, hram]
    simp
  refine ⟨?_, ?_, ?_⟩
  · intro h
    rw [key, h]
    simp
  · intro h
    rw [key, h]
    simp
  · intro m k t h
    rw [key] at h
    split at h
    · simp only [Prod.mk.injEq, Except.ok.injEq] at h
      obtain ⟨⟨hm, hk⟩, -⟩ := h
      rw [← hm, ← hk]
    · split at h
      · simp only [Prod.mk.injEq, Except.ok.injEq] at h
        obtain ⟨⟨hm, hk⟩, -⟩ := h
        rw [← hm, ← hk, mul_assoc]
      · simp at h

/-- C1 witness: scenario A (short, 512) gives sizes (512, 524288), and
scenario B (long, host memory 2048) gives sizes (4096, 4194304). -/
theorem C1_derive_size_witness :
    __get_io_test_size env0 args0 = (.ok (512, 524288), [freeCmd]) ∧
    __get_io_test_size env0 argsLong = (.ok (4096, 4194304), [freeCmd]) := by
  constructor
  · exact (C1_derive_size env0 args0 2048 rfl (by decide)).1 rfl
  · exact (C1_derive_size env0 argsLong 2048 rfl (by decide)).2.1 rfl

/-- C5: with any mode outside short and long the workload sizer fails
with the ConfigurationError; the trace shows that the only external
effect performed is the memory query itself, and no result and no size
is produced. -/
theorem C5_invalid_mode (env : Env) (args : Args) (ram : Int)
    (hexit : env.freeRun.exitCode = 0)
    (hram : pyInt (pyStrip env.freeRun.output) = some ram)
    (h1 : args.iobench_type ≠ "short") (h2 : args.iobench_type ≠ "long") :
    __get_io_test_size env args = (.error (.configuration args.iobench_type), [freeCmd]) := by
  unfold __get_io_test_size
  rw [hexit, hram]
  simp [h1, h2]

/-- C5 witness: mode medium fails with the ConfigurationError. -/
theorem C5_invalid_mode_witness :
    __get_io_test_size env0 argsBadMode = (.error (.configuration "medium"), [freeCmd]) :=
  C5_invalid_mode env0 argsBadMode 2048 rfl (by decide) (by decide) (by decide)

/-- C9: the workload sizer always runs the live memory query (it is the
whole invocation trace, whatever the mode), and when the query output is
not a decimal integer the call fails with a ValueError before the mode is
examined, so even short mode fails on a non numeric memory reading. -/
theorem C9_memory_query_first (env : Env) (args : Args) :
    (__get_io_test_size env args).2 = [freeCmd] ∧
    (env.freeRun.exitCode = 0 → pyInt (pyStrip env.freeRun.output) = none →
      __get_io_test_size env args =
        (.error (.valueError (pyStrip env.freeRun.output)), [freeCmd])) := by
  constructor
  · unfold __get_io_test_size
    split
    · rfl
    · split
      · rfl
      · split
        · rfl
        · split <;> rfl
  · intro hexit hbad
    unfold __get_io_test_size
    rw [hexit, hbad]
    simp

/-- C9 witness: in short mode, a non numeric memory reading still fails
the sizer with a ValueError. -/
theorem C9_memory_query_first_witness :
    __get_io_test_size envBadRam args0 =
      (.error (.valueError "not a number"), [freeCmd]) :=
  (C9_memory_query_first envBadRam args0).2 rfl (by decide)

theorem get_io_trace (env : Env) (args : Args) :
    (__get_io_test_size env args).2 = [freeCmd] := by
  unfold __get_io_test_size
  split
  · rfl
  · split
    · rfl
    · split
      · rfl
      · split <;> rfl

theorem iozone_trace (env : Env) (m k : Int) :
    (iozoneStep env m k).2 = [iozoneCmd m k] := by
  unfold iozoneStep
  split
  · rfl
  · split
    · rfl
    · split
      · rfl
      · split
        · rfl
        · split <;> rfl

theorem ioping_trace (env : Env) (last : Option String) :
    (iopingStep env last).2 = [iopingCmd] := by
  unfold iopingStep
  split
  · rfl
  · split
    · rfl
    · split <;> rfl

theorem ph_trace_cases (env : Env) :
    (_run_tests_phoronix env).2 = [phInstallCmdOf "pts/build-linux-kernel"] ∨
    (_run_tests_phoronix env).2 =
      [phInstallCmdOf "pts/build-linux-kernel", phBatchCmdOf "pts/build-linux-kernel"] := by
  unfold _run_tests_phoronix REQUIRED_PHORONIX_TESTS runPhoronixTests __run_phoronix_test
  split
  · left; rfl
  · split
    · right; rfl
    · split
      · right; rfl
      · right; rfl

theorem ph_ok_trace (env : Env) (v : List (String × TestResult)) (t : List String)
    (h : _run_tests_phoronix env = (.ok v, t)) :
    t = [phInstallCmdOf "pts/build-linux-kernel", phBatchCmdOf "pts/build-linux-kernel"] := by
  unfold _run_tests_phoronix REQUIRED_PHORONIX_TESTS runPhoronixTests __run_phoronix_test at h
  split at h
  · simp [rbind] at h
  · split at h
    · simp [rbind] at h
    · split at h
      · simp [rbind] at h
      · simp only [rbind, rmap, rok] at h
        exact (Prod.mk.injEq _ _ _ _).mp h |>.2.symm

theorem fio_ok_trace (env : Env) (last : Option String)
    (p : List (String × TestResult) × Option String) (t : List String)
    (h : runFioTests env REQUIRED_FIO_TESTS last = (.ok p, t)) :
    t = [fioCmd "random-write", fioCmd "random-read"] := by
  simp only [REQUIRED_FIO_TESTS, runFioTests, rtag, rmap, rok] at h
  split at h
  · simp at h
  · split at h
    · simp at h
    · split at h
      · simp [Except.map] at h
      · split at h
        · simp [Except.map] at h
        · simp only [Except.map] at h
          exact (Prod.mk.injEq _ _ _ _).mp h |>.2.symm

theorem iobench_body_ok_trace (env : Env) (m k : Int)
    (v : List (String × TestResult)) (t : List String)
    (h : __run_iobench_test env m k = (.ok v, t)) :
    t = [iozoneCmd m k, fioCmd "random-write", fioCmd "random-read", iopingCmd] := by
  unfold __run_iobench_test at h
  rcases h1 : iozoneStep env m k with ⟨r1, t1⟩
  have ht1 : t1 = [iozoneCmd m k] := by
    have := iozone_trace env m k
    rw [h1] at this
    exact this
  rw [h1] at h
  cases r1 with
  | error e => simp [rbind] at h
  | ok rz =>
    rw [rbind_ok] at h
    rcases h2 : runFioTests env REQUIRED_FIO_TESTS none with ⟨r2, t2⟩
    rw [h2] at h
    cases r2 with
    | error e => simp [rbind] at h
    | ok p =>
      have ht2 : t2 = [fioCmd "random-write", fioCmd "random-read"] :=
        fio_ok_trace env none p t2 h2
      rw [rbind_ok] at h
      rcases h3 : iopingStep env p.2 with ⟨r3, t3⟩
      have ht3 : t3 = [iopingCmd] := by
        have := ioping_trace env p.2
        rw [h3] at this
        exact this
      rw [h3] at h
      cases r3 with
      | error e => simp [rbind] at h
      | ok rp =>
        rw [rbind_ok] at h
        simp only [rok] at h
        have := (Prod.mk.injEq _ _ _ _).mp h |>.2
        rw [← this, ht1, ht2, ht3]
        rfl

theorem iobench_ok_trace (env : Env) (args : Args)
    (v : List (String × TestResult)) (t : List String)
    (h : _run_tests_iobench env args = (.ok v, t)) :
    ∃ m k, t = [freeCmd, iozoneCmd m k, fioCmd "random-write", fioCmd "random-read", iopingCmd] := by
  unfold _run_tests_iobench at h
  rcases h1 : __get_io_test_size env args with ⟨r1, t1⟩
  have ht1 : t1 = [freeCmd] := by
    have := get_io_trace env args
    rw [h1] at this
    exact this
  rw [h1] at h
  cases r1 with
  | error e => simp [rbind] at h
  | ok sz =>
    rw [rbind_ok] at h
    rcases h2 : __run_iobench_test env sz.1 sz.2 with ⟨r2, t2⟩
    rw [h2] at h
    cases r2 with
    | error e =>
      simp at h
    | ok bv =>
      have ht2 := iobench_body_ok_trace env sz.1 sz.2 bv t2 h2
      refine ⟨sz.1, sz.2, ?_⟩
      have := (Prod.mk.injEq _ _ _ _).mp h |>.2
      rw [← this, ht1, ht2]
      rfl

/-- C6: a nonzero exit of an external tool invocation (here the phoronix
batch-run) propagates as the CalledProcessError carrying the command line
and the exit status, which is a different error from an extraction
failure; the run terminates at once, so the result set holds nothing
beyond what preceded the call, no report is written, and the process
exits with code one. -/
theorem C6_tool_failure (env : Env) (args : Args) (s : Nat) (o : String)
    (hinst : (env.phInstallRun "pts/build-linux-kernel").exitCode = 0)
    (hrun : env.phBatchRun "pts/build-linux-kernel" = ⟨s, o⟩)
    (hs : s ≠ 0) :
    run_tests env args =
      (.error (.toolExecution (phBatchCmdOf "pts/build-linux-kernel") s),
        [phInstallCmdOf "pts/build-linux-kernel", phBatchCmdOf "pts/build-linux-kernel"]) ∧
    main_run env args = (1, none) ∧
    (∀ n t, BenchError.toolExecution (phBatchCmdOf "pts/build-linux-kernel") s ≠
      BenchError.extraction n t) := by
  have h1 : _run_tests_phoronix env =
      (.error (.toolExecution (phBatchCmdOf "pts/build-linux-kernel") s),
        [phInstallCmdOf "pts/build-linux-kernel", phBatchCmdOf "pts/build-linux-kernel"]) := by
    unfold _run_tests_phoronix REQUIRED_PHORONIX_TESTS runPhoronixTests __run_phoronix_test
    rw [hrun]
    simp [hinst, hs, rbind]
  have hr : run_tests env args =
      (.error (.toolExecution (phBatchCmdOf "pts/build-linux-kernel") s),
        [phInstallCmdOf "pts/build-linux-kernel", phBatchCmdOf "pts/build-linux-kernel"]) := by
    unfold run_tests
    rw [h1, rbind_error]
  refine ⟨hr, ?_, ?_⟩
  · unfold main_run
    rw [hr]
  · intro n t h
    exact BenchError.noConfusion h

/-- C6 witness: a batch-run exiting with status one yields the
CalledProcessError with that command line and status, no report, and
exit code one. -/
theorem C6_tool_failure_witness :
    run_tests envToolFail args0 =
      (.error (.toolExecution (phBatchCmdOf "pts/build-linux-kernel") 1),
        [phInstallCmdOf "pts/build-linux-kernel", phBatchCmdOf "pts/build-linux-kernel"]) ∧
    main_run envToolFail args0 = (1, none) := by
  have h := C6_tool_failure envToolFail args0 1 "boom" rfl rfl (by decide)
  exact ⟨h.1, h.2.1⟩

/-- C7: the compute family always runs before the I/O family: when the
compute family fails, the whole run fails with that error and the
invocation trace holds only compute family commands (no I/O test was
attempted); when the run succeeds, the trace is exactly the compute
family commands followed by the I/O family commands, each test invoked
once with no retry. -/
theorem C7_family_order (env : Env) (args : Args) :
    (∀ e t, _run_tests_phoronix env = (.error e, t) →
      run_tests env args = (.error e, t) ∧
      ∀ c ∈ t, c = phInstallCmdOf "pts/build-linux-kernel" ∨
        c = phBatchCmdOf "pts/build-linux-kernel") ∧
    (∀ v t, run_tests env args = (.ok v, t) →
      ∃ m k, t = [phInstallCmdOf "pts/build-linux-kernel", phBatchCmdOf "pts/build-linux-kernel",
        freeCmd, iozoneCmd m k, fioCmd "random-write", fioCmd "random-read", iopingCmd]) := by
  constructor
  · intro e t h
    constructor
    · unfold run_tests
      rw [h, rbind_error]
    · intro c hc
      rcases ph_trace_cases env with hcase | hcase <;> rw [h] at hcase <;>
        simp only at hcase <;> rw [hcase] at hc <;> simp at hc
      · exact Or.inl hc
      · exact hc
  · intro v t h
    unfold run_tests at h
    rcases h1 : _run_tests_phoronix env with ⟨r1, t1⟩
    rw [h1] at h
    cases r1 with
    | error e => simp [rbind] at h
    | ok ph =>
      rw [rbind_ok] at h
      rcases h2 : _run_tests_iobench env args with ⟨r2, t2⟩
      rw [h2] at h
      cases r2 with
      | error e => simp [rbind] at h
      | ok io =>
        obtain ⟨m, k, ht2⟩ := iobench_ok_trace env args io t2 h2
        have ht1 := ph_ok_trace env ph t1 h1
        refine ⟨m, k, ?_⟩
        have := (Prod.mk.injEq _ _ _ _).mp h |>.2
        rw [← this, ht1, ht2]
        rfl

/-- C7 witness: when the phoronix install exits with status two, the run
fails with that tool error and only the install command was ever
invoked. -/
theorem C7_family_order_witness :
    run_tests envInstFail args0 =
      (.error (.toolExecution (phInstallCmdOf "pts/build-linux-kernel") 2),
        [phInstallCmdOf "pts/build-linux-kernel"]) :=
  ((C7_family_order envInstFail args0).1
    (.toolExecution (phInstallCmdOf "pts/build-linux-kernel") 2)
    [phInstallCmdOf "pts/build-linux-kernel"] (by decide)).1

/-- C8: the process exit code is one for every failing run whatever the
error kind and zero for a fully successful run, and the report file with
the fixed header line exists exactly on the successful paths (run_tests
raises before opening the report on every failure, so no partial report
is ever produced). -/
theorem C8_exit_contract (env : Env) (args : Args) :
    (∀ e t, run_tests env args = (.error e, t) → main_run env args = (1, none)) ∧
    (∀ v t, run_tests env args = (.ok v, t) →
      main_run env args = (0, some v.2) ∧ ∃ r, v.2 = csvHeader ++ r) := by
  constructor
  · intro e t h
    unfold main_run
    rw [h]
  · intro v t h
    constructor
    · unfold main_run
      rw [h]
    · unfold run_tests at h
      rcases h1 : _run_tests_phoronix env with ⟨r1, t1⟩
      rw [h1] at h
      cases r1 with
      | error e => simp [rbind] at h
      | ok ph =>
        rw [rbind_ok] at h
        rcases h2 : _run_tests_iobench env args with ⟨r2, t2⟩
        rw [h2] at h
        cases r2 with
        | error e => simp [rbind] at h
        | ok io =>
          simp only [rbind, rok] at h
          obtain ⟨hv, -⟩ := (Prod.mk.injEq _ _ _ _).mp h
          injection hv with hv3
          rw [← hv3]
          exact ⟨_, rfl⟩

/-- C8 witness: the successful env0 run exits with code zero and writes
the report, which starts with the fixed header line. -/
theorem C8_exit_contract_witness :
    main_run env0 args0 = (0, some goodCsv) ∧ ∃ r, goodCsv = csvHeader ++ r := by
  have h := (C8_exit_contract env0 args0).2 (goodEvents, goodCsv) goodTrace run_env0
  exact h

set_option maxRecDepth 100000 in
/-- C2: the claim that every test surfaces unmatched output as the
ExtractionError carrying the test name and the captured text fails for
the ioping test: the guard of the source reads the stale result variable
of the last fio test, which is always a successful match at that point.
With a short ioping output the run dies with a bare IndexError instead
(first conjunct); with a six field junk output the run succeeds and
silently records the sixth field (second conjunct); and the IndexError
carries neither a test name nor the captured text (third conjunct). -/
theorem C2_ioping_guard_bug :
    run_tests envBugShort args0 = (.error .indexError, goodTrace) ∧
    (run_tests envBugJunk args0).1.map (fun v => lookupLast v.1 "ioping") =
      Except.ok (some ⟨iopingName, "fusec"⟩) ∧
    (∀ n o, BenchError.indexError ≠ BenchError.extraction n o) := by
  refine ⟨by decide, by decide, ?_⟩
  intro n o h
  exact BenchError.noConfusion h

theorem iozoneFiltered_eq (size_k : Int) (ls : List String) :
    iozoneFilteredLines size_k ls =
      ls.filter (fun l => (! strContains l "minimum") &&
        (! strContains l "maximum") && strContains l (toString size_k)) := by
  unfold iozoneFilteredLines
  rw [List.filter_filter, List.filter_filter]

theorem filter_single {α : Type} (p : α → Bool) (xs ys : List α) (x : α)
    (hx : p x = true) (hxs : ∀ l ∈ xs, p l = false) (hys : ∀ l ∈ ys, p l = false) :
    (xs ++ x :: ys).filter p = [x] := by
  induction xs with
  | nil =>
    rw [List.nil_append, List.filter_cons_of_pos hx]
    rw [List.filter_eq_nil_iff.mpr (fun l hl => by rw [hys l hl]; exact Bool.false_ne_true)]
  | cons a as ih =>
    have ha : p a = false := hxs a (List.mem_cons_self a as)
    rw [List.cons_append, List.filter_cons_of_neg (by rw [ha]; exact Bool.false_ne_true)]
    exact ih (fun l hl => hxs l (List.mem_cons_of_mem a hl))

/-- C3: the grep chain of the iozone command excludes every line holding
the word maximum or minimum (after selecting the lines holding the
kilobyte size), so when only one row of the block is free of those words
the filter keeps exactly that row wherever it stands, and the extraction
step behaves as if that row were the whole block. -/
theorem C3_iozone_filter (size_k : Int) (xs ys : List String) (l2 : String)
    (hsz : ∀ l ∈ xs ++ l2 :: ys, strContains l (toString size_k) = true)
    (hdirty : ∀ l ∈ xs ++ ys, strContains l "maximum" = true ∨ strContains l "minimum" = true)
    (hmax : strContains l2 "maximum" = false)
    (hmin : strContains l2 "minimum" = false) :
    iozoneFilteredLines size_k (xs ++ l2 :: ys) = [l2] ∧
    (∀ env m, env.iozoneRawLines = xs ++ l2 :: ys →
      iozoneStep env m size_k = iozoneStep { env with iozoneRawLines := [l2] } m size_k) := by
  have hl2 : ((! strContains l2 "minimum") &&
      (! strContains l2 "maximum") && strContains l2 (toString size_k)) = true := by
    have := hsz l2 (by simp)
    simp [hmax, hmin, this]
  have hdrop : ∀ l ∈ xs ++ ys, ((! strContains l "minimum") &&
      (! strContains l "maximum") && strContains l (toString size_k)) = false := by
    intro l hl
    rcases hdirty l hl with hd | hd
    · simp [hd]
    · simp [hd]
  have hfil : iozoneFilteredLines size_k (xs ++ l2 :: ys) = [l2] := by
    rw [iozoneFiltered_eq]
    exact filter_single _ xs ys l2 hl2
      (fun l hl => hdrop l (List.mem_append_left ys hl))
      (fun l hl => hdrop l (List.mem_append_right xs hl))
  refine ⟨hfil, ?_⟩
  intro env m henv
  have hfil2 : iozoneFilteredLines size_k [l2] = [l2] := by
    rw [iozoneFiltered_eq]
    exact filter_single _ [] [] l2 hl2 (by intro l hl; cases hl) (by intro l hl; cases hl)
  have hout : iozoneOutput size_k (xs ++ l2 :: ys) = iozoneOutput size_k [l2] := by
    unfold iozoneOutput
    rw [hfil, hfil2]
  unfold iozoneStep
  rw [henv, hout]

/-- C3 witness: in a three row block where only the average row lacks the
words maximum and minimum, the filter keeps exactly the average row, both
when it stands in the middle and when it stands last. -/
theorem C3_iozone_filter_witness :
    iozoneFilteredLines 524288 [rowMax, rowAvg, rowMin] = [rowAvg] ∧
    iozoneFilteredLines 524288 [rowMin, rowMax, rowAvg] = [rowAvg] := by
  constructor
  · exact (C3_iozone_filter 524288 [rowMax] [rowMin] rowAvg
      (by decide) (by decide) (by decide) (by decide)).1
  · exact (C3_iozone_filter 524288 [rowMin, rowMax] [] rowAvg
      (by decide) (by decide) (by decide) (by decide)).1

set_option maxRecDepth 100000 in
/-- C4 counterexample: the fully successful env0 run stores its results
under a plain Python 2 dict; the report row order computed by the
program, which is the hash table slot order of the five identifiers, is
not the execution order of the tests, so the claimed ordered mapping
invariant fails on the code. -/
theorem C4_report_order_counterexample :
    run_tests env0 args0 = (.ok (goodEvents, goodCsv), goodTrace) ∧
    goodEvents.map Prod.fst =
      ["pts/build-linux-kernel", "iozone", "random-write", "random-read", "ioping"] ∧
    reportKeyOrder ["pts/build-linux-kernel"] ["iozone", "random-write", "random-read", "ioping"] =
      ["iozone", "random-read", "ioping", "pts/build-linux-kernel", "random-write"] ∧
    reportKeyOrder ["pts/build-linux-kernel"] ["iozone", "random-write", "random-read", "ioping"] ≠
      ["pts/build-linux-kernel", "iozone", "random-write", "random-read", "ioping"] := by
  exact ⟨run_env0, by decide, by decide, by decide⟩

set_option maxRecDepth 100000 in
/-- C4 amended: the ResultSet is a CPython 2 hash dict, so a later entry
reusing an identifier overwrites the stored value (last write wins) and
the identifier keeps its original table slot, as shown on the identifiers
of this program; but the iteration and report row order is the hash slot
order of the identifiers, which for this program is iozone, random-read,
ioping, pts/build-linux-kernel, random-write, not the execution order. -/
theorem C4_report_order_amended :
    (∀ events k v, lookupLast (events ++ [(k, v)]) k = some v) ∧
    dictOrder ["pts/build-linux-kernel", "iozone", "random-write", "random-read", "ioping", "iozone"] =
      dictOrder ["pts/build-linux-kernel", "iozone", "random-write", "random-read", "ioping"] ∧
    reportKeyOrder ["pts/build-linux-kernel"] ["iozone", "random-write", "random-read", "ioping"] =
      ["iozone", "random-read", "ioping", "pts/build-linux-kernel", "random-write"] := by
  refine ⟨?_, by decide, by decide⟩
  intro events k v
  simp [lookupLast]

theorem toString_intOfNat (n : Nat) : toString (Int.ofNat n) = toString n := rfl

theorem pyFloorDiv_ofNat (a : Nat) :
    pyFloorDiv (Int.ofNat a) 1024 = Int.ofNat (a / 1024) := by
  cases a with
  | zero => rfl
  | succ n => rfl

/-- C10: when the filter leaves a single result line whose third and
fifth whitespace separated columns are unsigned decimal numerals, the
recorded iozone result embeds those two numbers divided by 1024 with the
Python 2 integer division, which on these nonnegative values rounds down
to whole megabytes per second. -/
theorem C10_truncating_division (env : Env) (size_m size_k : Int) (L : String)
    (c2 c4 : String) (a b : Nat)
    (hexit : env.iozoneExit = 0)
    (hfil : iozoneFilteredLines size_k env.iozoneRawLines = [L])
    (h2 : (pyReSplitWs (pyStrip (L ++ "\n"))).get? 2 = some c2)
    (h4 : (pyReSplitWs (pyStrip (L ++ "\n"))).get? 4 = some c4)
    (ha : pyInt c2 = some (Int.ofNat a)) (hb : pyInt c4 = some (Int.ofNat b)) :
    iozoneStep env size_m size_k =
      (.ok ⟨iozoneName, "Write " ++ toString (a / 1024) ++ " MB/s Read " ++
        toString (b / 1024) ++ " MB/s"⟩, [iozoneCmd size_m size_k]) := by
  have hout : iozoneOutput size_k env.iozoneRawLines = L ++ "\n" := by
    unfold iozoneOutput
    rw [hfil]
    rfl
  unfold iozoneStep
  simp only [hexit, hout, h2, h4, ha, hb, ne_eq, not_true_eq_false, ite_false,
    not_false_eq_true, if_neg]
  rw [pyFloorDiv_ofNat a, pyFloorDiv_ofNat b, toString_intOfNat, toString_intOfNat]

/-- C10 witness: a single filtered row with columns 1000 and 3000 is
recorded as zero and two megabytes per second: the divisions by 1024
truncate. -/
theorem C10_truncating_division_witness :
    iozoneStep envTrunc 512 524288 =
      (.ok ⟨iozoneName, "Write 0 MB/s Read 2 MB/s"⟩, [iozoneCmd 512 524288]) := by
  have h := C10_truncating_division envTrunc 512 524288 "524288 16 1000 200 3000"
    "1000" "3000" 1000 3000 rfl (by decide) (by decide) (by decide) (by decide) (by decide)
  simpa using h

end CloudBench
